import Mathlib

/-!
Verification of the analytics query layer of the `desafio-nola-level`
repository (restaurant analytics HTTP API).

The relational rows read by the service are modelled as Lean structures,
SQL timestamps as rational days since 1970-01-01 (a Thursday), and SQL
numeric values as rationals.  Each service method of
`backend/app/services/analytics_service.py` is embedded as a pure
function from the lists of rows it reads (plus its parameters) to the
typed response values it constructs; a SQL aggregate over zero rows is
modelled as `Option.none`, mirroring SQL's NULL.
-/

namespace Nola

/-- Row of the `sales` table (model `Sale` in `backend/app/models/models.py`). -/
structure Sale where
  id : ℕ
  store_id : ℕ
  channel_id : ℕ
  customer_id : Option ℕ
  created_at : ℚ
  sale_status_desc : String
  total_amount : ℚ
  total_discount : ℚ
  delivery_fee : ℚ
  production_seconds : ℚ
  delivery_seconds : Option ℚ
  deriving DecidableEq

/-- Row of the `channels` table. -/
structure Channel where
  id : ℕ
  name : String
  type : String
  deriving DecidableEq

/-- Row of the `stores` table. -/
structure Store where
  id : ℕ
  name : String
  city : Option String
  state : Option String
  deriving DecidableEq

/-- Row of the `customers` table. -/
structure Customer where
  id : ℕ
  customer_name : Option String
  email : Option String
  phone_number : Option String
  deriving DecidableEq

/-- Row of the `product_sales` table (line item of a sale). -/
structure ProductSale where
  sale_id : ℕ
  product_id : ℕ
  quantity : ℚ
  base_price : ℚ
  total_price : ℚ
  deriving DecidableEq

/-- Row of the `products` table. -/
structure Product where
  id : ℕ
  name : String
  category_id : Option ℕ
  deriving DecidableEq

/-- Row of the `delivery_addresses` table. -/
structure DeliveryAddress where
  sale_id : ℕ
  neighborhood : Option String
  city : Option String
  deriving DecidableEq

/-- `DateRangeFilter` of `backend/app/schemas/analytics.py`. -/
structure DateRangeFilter where
  start_date : Option ℚ
  end_date : Option ℚ
  deriving DecidableEq

/-- `DimensionFilter` of `backend/app/schemas/analytics.py`: six optional
id/status allow-lists. -/
structure DimensionFilter where
  store_ids : Option (List ℕ)
  channel_ids : Option (List ℕ)
  product_ids : Option (List ℕ)
  category_ids : Option (List ℕ)
  customer_ids : Option (List ℕ)
  sale_status : Option (List String)
  deriving DecidableEq

/-- Date-range part of `AnalyticsService._apply_filters` (lines 29-33):
inclusive bounds, an absent bound is unrestricted, a `None` range is
unrestricted (Python truthiness of the optional argument). -/
def dateOk (dr : Option DateRangeFilter) (s : Sale) : Bool :=
  match dr with
  | none => true
  | some r =>
    (match r.start_date with
     | none => true
     | some d => decide (d ≤ s.created_at)) &&
    (match r.end_date with
     | none => true
     | some d => decide (s.created_at ≤ d))

/-- One dimension of `_apply_filters` over a non-null integer column:
Python's `if filters.xxx_ids:` skips the restriction when the allow-list
is `None` or empty, otherwise SQL `IN` membership applies. -/
def inDim (o : Option (List ℕ)) (v : ℕ) : Bool :=
  match o with
  | none => true
  | some l => if l.isEmpty then true else l.contains v

/-- One dimension of `_apply_filters` over the nullable `customer_id`
column: SQL `NULL IN (...)` is not true, so a present non-empty
allow-list excludes sales without a customer. -/
def inDimOpt (o : Option (List ℕ)) (v : Option ℕ) : Bool :=
  match o with
  | none => true
  | some l =>
    if l.isEmpty then true
    else
      match v with
      | none => false
      | some x => l.contains x

/-- One dimension of `_apply_filters` over the status string column. -/
def inDimStr (o : Option (List String)) (v : String) : Bool :=
  match o with
  | none => true
  | some l => if l.isEmpty then true else l.contains v

/-- Dimension part of `AnalyticsService._apply_filters` (lines 35-43):
only `store_ids`, `channel_ids`, `sale_status` and `customer_ids` are
ever applied; `product_ids` and `category_ids` are not read. -/
def dimOk (f : Option DimensionFilter) (s : Sale) : Bool :=
  match f with
  | none => true
  | some f =>
    inDim f.store_ids s.store_id &&
    inDim f.channel_ids s.channel_id &&
    inDimStr f.sale_status s.sale_status_desc &&
    inDimOpt f.customer_ids s.customer_id

/-- `AnalyticsService._apply_filters` applied to a base `Sale` query:
keeps exactly the sales passing the date-range and dimension predicates. -/
def apply_filters (sales : List Sale) (dr : Option DateRangeFilter)
    (f : Option DimensionFilter) : List Sale :=
  sales.filter (fun s => dateOk dr s && dimOk f s)

/-- Modelled from the spec (section 4.1): satisfaction of the
`product_ids` dimension by a sale, "within a dimension, membership is
logical OR (IN-set semantics)" — the sale has a line item whose product
is in the allow-list. -/
def specProductOk (ps : List ProductSale) (o : Option (List ℕ)) (s : Sale) : Bool :=
  match o with
  | none => true
  | some l =>
    l.isEmpty || ps.any (fun r => r.sale_id == s.id && l.contains r.product_id)

/-- Modelled from the spec (section 4.1): satisfaction of the
`category_ids` dimension by a sale — the sale has a line item whose
product belongs to a category in the allow-list. -/
def specCategoryOk (ps : List ProductSale) (prods : List Product)
    (o : Option (List ℕ)) (s : Sale) : Bool :=
  match o with
  | none => true
  | some l =>
    l.isEmpty || ps.any (fun r =>
      r.sale_id == s.id && prods.any (fun p =>
        p.id == r.product_id &&
          (match p.category_id with
           | none => false
           | some c => l.contains c)))

/-- Modelled from the spec (section 4.1): a sale satisfies a dimension
filter when every one of the six dimension sets present in the filter is
satisfied (logical AND across dimensions), an absent or empty set
imposing no restriction. -/
def specDimensionMatches (ps : List ProductSale) (prods : List Product)
    (f : DimensionFilter) (s : Sale) : Bool :=
  inDim f.store_ids s.store_id &&
  inDim f.channel_ids s.channel_id &&
  specProductOk ps f.product_ids s &&
  specCategoryOk ps prods f.category_ids s &&
  inDimOpt f.customer_ids s.customer_id &&
  inDimStr f.sale_status s.sale_status_desc

/-- ASCII lower-casing of one character, the normalization underlying the
database's case-insensitive `ILIKE` comparison. -/
def lowerChar (c : Char) : Char :=
  if c.isUpper then Char.ofNat (c.toNat + 32) else c

/-- ASCII lower-casing of a string. -/
def lowerStr (s : String) : String :=
  String.mk (s.toList.map lowerChar)

/-- SQL `ILIKE` with a wildcard-free pattern: case-insensitive equality. -/
def ilikeExact (st pat : String) : Bool :=
  lowerStr st == lowerStr pat

/-- Status test of the production query path
(`analytics_service.py`, e.g. line 91): case-sensitive equality against
the literal string COMPLETED. -/
def completedStatus (st : String) : Bool :=
  st == "COMPLETED"

/-- Status test of the prototype raw-SQL path
(`app/routers/analytics.py` line 39, `ILIKE 'completed'`):
case-insensitive match of a wildcard-free pattern. -/
def protoCompletedStatus (st : String) : Bool :=
  ilikeExact st "completed"

/-- A sale counted as completed by the production path. -/
def completedSale (s : Sale) : Bool :=
  completedStatus s.sale_status_desc

/-- Insertion of one element into a list sorted by the boolean relation
`le`; used to model SQL `ORDER BY`. -/
def insertSorted (le : α → α → Bool) (a : α) : List α → List α
  | [] => [a]
  | b :: t => if le a b then a :: b :: t else b :: insertSorted le a t

/-- Sorting by the boolean relation `le`; models SQL `ORDER BY`. -/
def sortBy (le : α → α → Bool) (l : List α) : List α :=
  l.foldr (insertSorted le) []

/-- The `WHERE`-filtered completed sale set shared by the two queries of
the percentage protocol (`_apply_filters` plus
`sale_status_desc == 'COMPLETED'`). -/
def completedFilteredSales (sales : List Sale) (dr : Option DateRangeFilter)
    (f : Option DimensionFilter) : List Sale :=
  (apply_filters sales dr f).filter completedSale

/-- First query of `get_channel_performance` / `get_store_performance`
(lines 115-120 / 156-161): total completed revenue under the filter,
with `scalar() or 0` turning the NULL of an empty set into 0. -/
def totalCompletedRevenue (sales : List Sale) (dr : Option DateRangeFilter)
    (f : Option DimensionFilter) : ℚ :=
  ((completedFilteredSales sales dr f).map (fun s => s.total_amount)).sum

/-- Result row of `SalesOverviewResponse`. -/
structure SalesOverviewResponse where
  total_sales : ℕ
  total_revenue : ℚ
  average_ticket : ℚ
  completed_sales : ℕ
  cancelled_sales : ℕ
  total_discount : ℚ
  total_delivery_fee : ℚ
  deriving DecidableEq

/-- The single row returned by the aggregate query of
`get_sales_overview` (lines 50-61): SQL `COUNT` is never NULL, while
`SUM`/`AVG` (including the conditional `SUM(CASE ...)` counts) are NULL
exactly when no row matches, modelled by `Option.none`. -/
structure OverviewRow where
  total_sales : ℕ
  total_revenue : Option ℚ
  average_ticket : Option ℚ
  completed_sales : Option ℕ
  cancelled_sales : Option ℕ
  total_discount : Option ℚ
  total_delivery_fee : Option ℚ
  deriving DecidableEq

/-- Aggregate query of `get_sales_overview` before response shaping. -/
def overviewRow (sales : List Sale) (dr : Option DateRangeFilter)
    (f : Option DimensionFilter) : OverviewRow :=
  let m := apply_filters sales dr f
  { total_sales := m.length
    total_revenue := if m.isEmpty then none else some ((m.map (fun s => s.total_amount)).sum)
    average_ticket := if m.isEmpty then none else some ((m.map (fun s => s.total_amount)).sum / m.length)
    completed_sales := if m.isEmpty then none else some (m.countP (fun s => s.sale_status_desc == "COMPLETED"))
    cancelled_sales := if m.isEmpty then none else some (m.countP (fun s => s.sale_status_desc == "CANCELLED"))
    total_discount := if m.isEmpty then none else some ((m.map (fun s => s.total_discount)).sum)
    total_delivery_fee := if m.isEmpty then none else some ((m.map (fun s => s.delivery_fee)).sum) }

/-- `AnalyticsService.get_sales_overview` (lines 47-71): every nullable
aggregate is coerced to 0 (`result.x or 0`) before being placed in the
typed response. -/
def get_sales_overview (sales : List Sale) (dr : Option DateRangeFilter)
    (f : Option DimensionFilter) : SalesOverviewResponse :=
  let result := overviewRow sales dr f
  { total_sales := result.total_sales
    total_revenue := result.total_revenue.getD 0
    average_ticket := result.average_ticket.getD 0
    completed_sales := result.completed_sales.getD 0
    cancelled_sales := result.cancelled_sales.getD 0
    total_discount := result.total_discount.getD 0
    total_delivery_fee := result.total_delivery_fee.getD 0 }

/-- Production completed-sale input of `get_product_ranking`
(lines 90-91): `_apply_filters` then `sale_status_desc == 'COMPLETED'`. -/
def rankingCompletedInput (sales : List Sale) (dr : Option DateRangeFilter)
    (f : Option DimensionFilter) : List Sale :=
  (apply_filters sales dr f).filter completedSale

/-- Prototype completed-sale input of the raw-SQL `top_products` route
(`app/routers/analytics.py` line 39): `WHERE sale_status_desc ILIKE
'completed'`. -/
def topProductsCompletedInput (sales : List Sale) : List Sale :=
  sales.filter (fun s => protoCompletedStatus s.sale_status_desc)

/-- Item of `ChannelPerformanceResponse`. -/
structure ChannelPerformanceItem where
  channel_id : ℕ
  channel_name : String
  channel_type : String
  total_sales : ℕ
  total_revenue : ℚ
  average_ticket : ℚ
  revenue_percentage : ℚ
  deriving DecidableEq

/-- One grouped row of `AnalyticsService.get_channel_performance`
(lines 122-150): a channel joined to at least one completed filtered
sale yields an item whose `revenue_percentage` divides the group revenue
by the total of the first query, zero when that total is not positive. -/
def channelRow (base : List Sale) (total_revenue : ℚ) (c : Channel) :
    Option ChannelPerformanceItem :=
  let ss := base.filter (fun s => s.channel_id == c.id)
  if ss.isEmpty then none
  else some
    { channel_id := c.id
      channel_name := c.name
      channel_type := c.type
      total_sales := ss.length
      total_revenue := (ss.map (fun s => s.total_amount)).sum
      average_ticket := (ss.map (fun s => s.total_amount)).sum / ss.length
      revenue_percentage :=
        if 0 < total_revenue
        then (ss.map (fun s => s.total_amount)).sum / total_revenue * 100
        else 0 }

/-- Body of `get_channel_performance`: groups formed by the inner join,
one per channel with at least one completed filtered sale. -/
def get_channel_performance (sales : List Sale) (channels : List Channel)
    (dr : Option DateRangeFilter) (f : Option DimensionFilter) :
    List ChannelPerformanceItem :=
  sortBy (fun a b => decide (b.total_revenue ≤ a.total_revenue))
    (channels.filterMap
      (channelRow (completedFilteredSales sales dr f) (totalCompletedRevenue sales dr f)))

/-- Item of `StorePerformanceResponse`. -/
structure StorePerformanceItem where
  store_id : ℕ
  store_name : String
  city : Option String
  state : Option String
  total_sales : ℕ
  total_revenue : ℚ
  average_ticket : ℚ
  revenue_percentage : ℚ
  deriving DecidableEq

/-- One grouped row of `AnalyticsService.get_store_performance`
(lines 163-193), the store analogue of `channelRow`. -/
def storeRow (base : List Sale) (total_revenue : ℚ) (st : Store) :
    Option StorePerformanceItem :=
  let ss := base.filter (fun s => s.store_id == st.id)
  if ss.isEmpty then none
  else some
    { store_id := st.id
      store_name := st.name
      city := st.city
      state := st.state
      total_sales := ss.length
      total_revenue := (ss.map (fun s => s.total_amount)).sum
      average_ticket := (ss.map (fun s => s.total_amount)).sum / ss.length
      revenue_percentage :=
        if 0 < total_revenue
        then (ss.map (fun s => s.total_amount)).sum / total_revenue * 100
        else 0 }

/-- `AnalyticsService.get_store_performance` (lines 152-193): identical
two-query percentage protocol, grouped by store. -/
def get_store_performance (sales : List Sale) (stores : List Store)
    (dr : Option DateRangeFilter) (f : Option DimensionFilter) :
    List StorePerformanceItem :=
  sortBy (fun a b => decide (b.total_revenue ≤ a.total_revenue))
    (stores.filterMap
      (storeRow (completedFilteredSales sales dr f) (totalCompletedRevenue sales dr f)))

/-- Day truncation of a timestamp (`cast(Sale.created_at, Date)`):
rational days since epoch floor to the containing day. -/
def dateTruncDay (t : ℚ) : ℚ :=
  (Rat.floor t : ℤ)

/-- Week truncation (`date_trunc('week', ...)` of the database): Monday
start of the containing ISO week; day 4 since epoch (1970-01-05) was a
Monday. -/
def dateTruncWeek (t : ℚ) : ℚ :=
  ((7 * ((Rat.floor t - 4).fdiv 7) + 4 : ℤ) : ℚ)

/-- Civil date (year, month, day) of a day count since 1970-01-01,
following the standard days-to-civil conversion; models the calendar
arithmetic of the database. -/
def civilFromDays (z : ℤ) : ℤ × ℤ × ℤ :=
  let z := z + 719468
  let era := z.fdiv 146097
  let doe := z - era * 146097
  let yoe := (doe - doe.fdiv 1460 + doe.fdiv 36524 - doe.fdiv 146096).fdiv 365
  let doy := doe - (365 * yoe + yoe.fdiv 4 - yoe.fdiv 100)
  let mp := (5 * doy + 2).fdiv 153
  let d := doy - (153 * mp + 2).fdiv 5 + 1
  let m := mp + (if mp < 10 then 3 else -9)
  (yoe + era * 400 + (if m ≤ 2 then 1 else 0), m, d)

/-- Day count since 1970-01-01 of a civil date, inverse of
`civilFromDays`. -/
def daysFromCivil (y m d : ℤ) : ℤ :=
  let y := y - (if m ≤ 2 then 1 else 0)
  let era := y.fdiv 400
  let yoe := y - era * 400
  let mp := m + (if 2 < m then -3 else 9)
  let doy := (153 * mp + 2).fdiv 5 + d - 1
  let doe := yoe * 365 + yoe.fdiv 4 - yoe.fdiv 100 + doy
  era * 146097 + doe - 719468

/-- Month truncation (`date_trunc('month', ...)` of the database): first
day of the containing civil month. -/
def dateTruncMonth (t : ℚ) : ℚ :=
  let c := civilFromDays (Rat.floor t)
  ((daysFromCivil c.1 c.2.1 1 : ℤ) : ℚ)

/-- Grouping key dispatch of `get_time_series` (lines 199-208): the
`else` branch silently falls back to the daily key. -/
def dateGroupOf (period : String) : ℚ → ℚ :=
  if period == "daily" then dateTruncDay
  else if period == "weekly" then dateTruncWeek
  else if period == "monthly" then dateTruncMonth
  else dateTruncDay

/-- The `regex='^(daily|weekly|monthly)$'` validation of the `/timeseries`
HTTP parameter (`backend/app/api/v1/analytics.py` line 133). -/
def periodParamValid (p : String) : Bool :=
  p == "daily" || p == "weekly" || p == "monthly"

/-- Data point of `TimeSeriesResponse`; the date key is kept in its
numeric form (the code renders it to an ISO string). -/
structure TimeSeriesDataPoint where
  date : ℚ
  sales_count : ℕ
  revenue : ℚ
  average_ticket : ℚ
  deriving DecidableEq

/-- `AnalyticsService.get_time_series` (lines 195-232): completed
filtered sales grouped by the truncated date, ordered by date. -/
def get_time_series (sales : List Sale) (dr : Option DateRangeFilter)
    (f : Option DimensionFilter) (period : String) : List TimeSeriesDataPoint :=
  let date_group := dateGroupOf period
  let base := (apply_filters sales dr f).filter completedSale
  let keys := (base.map (fun s => date_group s.created_at)).dedup
  let rows := keys.map (fun k =>
    let ss := base.filter (fun s => date_group s.created_at == k)
    { date := k
      sales_count := ss.length
      revenue := (ss.map (fun s => s.total_amount)).sum
      average_ticket := (ss.map (fun s => s.total_amount)).sum / ss.length
      : TimeSeriesDataPoint })
  sortBy (fun a b => decide (a.date ≤ b.date)) rows

/-- Item of `CustomerRetentionResponse`. -/
structure CustomerRetentionItem where
  customer_id : ℕ
  customer_name : Option String
  email : Option String
  phone_number : Option String
  total_orders : ℕ
  total_spent : ℚ
  average_ticket : ℚ
  last_order_date : ℚ
  days_since_last_order : ℤ
  first_order_date : ℚ
  deriving DecidableEq

/-- Completed sales linked to a given customer id (the grouped rows of
the `customer_stats` subquery of `get_customer_retention`, lines
240-250: `customer_id IS NOT NULL AND sale_status_desc = 'COMPLETED'`
grouped by customer). -/
def custCompletedSales (sales : List Sale) (cid : ℕ) : List Sale :=
  sales.filter (fun s => s.customer_id == some cid && completedStatus s.sale_status_desc)

/-- Most recent creation timestamp of a group of sales
(`MAX(created_at)`); 0 on an empty group, which the service never
queries. -/
def lastOrderDate (q : List Sale) : ℚ :=
  ((q.map (fun s => s.created_at)).max?).getD 0

/-- Earliest creation timestamp of a group of sales (`MIN(created_at)`). -/
def firstOrderDate (q : List Sale) : ℚ :=
  ((q.map (fun s => s.created_at)).min?).getD 0

/-- One joined row of `AnalyticsService.get_customer_retention`
(lines 252-266): a customer kept when the completed-stats group exists
with `total_orders >= min_orders` and `last_order_date < cutoff_date`. -/
def retentionRow (sales : List Sale) (now : ℚ) (min_orders : ℕ)
    (cutoff_date : ℚ) (c : Customer) : Option CustomerRetentionItem :=
  let q := custCompletedSales sales c.id
  if q.isEmpty then none
  else if min_orders ≤ q.length ∧ lastOrderDate q < cutoff_date then
    some
      { customer_id := c.id
        customer_name := c.customer_name
        email := c.email
        phone_number := c.phone_number
        total_orders := q.length
        total_spent := (q.map (fun s => s.total_amount)).sum
        average_ticket := (q.map (fun s => s.total_amount)).sum / q.length
        last_order_date := lastOrderDate q
        days_since_last_order := Rat.floor (now - lastOrderDate q)
        first_order_date := firstOrderDate q }
  else none

set_option linter.unusedVariables false in
/-- `AnalyticsService.get_customer_retention` (lines 234-284): joins the
per-customer completed stats to the customer table and keeps customers
with `total_orders >= min_orders` and `last_order_date <` now minus
`days_inactive` days, ordered by total spent descending.  The accepted
`date_range` argument is not read by the body, as in the source. -/
def get_customer_retention (sales : List Sale) (customers : List Customer)
    (now : ℚ) (min_orders : ℕ) (days_inactive : ℕ)
    (date_range : Option DateRangeFilter) : List CustomerRetentionItem :=
  sortBy (fun a b => decide (b.total_spent ≤ a.total_spent))
    (customers.filterMap (retentionRow sales now min_orders (now - (days_inactive : ℚ))))

/-- Item of `DeliveryPerformanceResponse`. -/
structure DeliveryPerformanceItem where
  neighborhood : Option String
  city : Option String
  total_deliveries : ℕ
  avg_delivery_time_minutes : ℚ
  avg_production_time_minutes : ℚ
  total_delivery_time_minutes : ℚ
  deriving DecidableEq

/-- Qualifying sale of `get_delivery_performance` (lines 302-306):
passes the filters, is completed and has a non-null `delivery_seconds`. -/
def deliveryQualifies (s : Sale) : Bool :=
  completedSale s && s.delivery_seconds.isSome

/-- Inner join `Sale JOIN DeliveryAddress ON Sale.id = sale_id`. -/
def deliveryRows (sales : List Sale) (das : List DeliveryAddress) :
    List (Sale × DeliveryAddress) :=
  sales.flatMap (fun s => (das.filter (fun a => a.sale_id == s.id)).map (fun a => (s, a)))

/-- Grouped join rows of `get_delivery_performance` for one
(neighborhood, city) key. -/
def deliveryGroup (sales : List Sale) (das : List DeliveryAddress)
    (dr : Option DateRangeFilter) (f : Option DimensionFilter)
    (k : Option String × Option String) : List (Sale × DeliveryAddress) :=
  (deliveryRows ((apply_filters sales dr f).filter deliveryQualifies) das).filter
    (fun r => decide ((r.2.neighborhood, r.2.city) = k))

/-- One grouped row of `AnalyticsService.get_delivery_performance`
(lines 292-308): the group of a (neighborhood, city) key survives the
`HAVING COUNT(Sale.id) >= 5` threshold or is dropped. -/
def deliveryItem (rows : List (Sale × DeliveryAddress))
    (k : Option String × Option String) : Option DeliveryPerformanceItem :=
  let g := rows.filter (fun r => decide ((r.2.neighborhood, r.2.city) = k))
  if 5 ≤ g.length then
    let avgd := (g.map (fun r => r.1.delivery_seconds.getD 0 / 60)).sum / (g.length : ℚ)
    let avgp := (g.map (fun r => r.1.production_seconds / 60)).sum / (g.length : ℚ)
    some
      { neighborhood := k.1
        city := k.2
        total_deliveries := g.length
        avg_delivery_time_minutes := avgd
        avg_production_time_minutes := avgp
        total_delivery_time_minutes := avgd + avgp }
  else none

/-- `AnalyticsService.get_delivery_performance` (lines 286-323): groups
the qualifying joined rows by (neighborhood, city), keeps groups with at
least 5 deliveries, and orders by total time descending. -/
def get_delivery_performance (sales : List Sale) (das : List DeliveryAddress)
    (dr : Option DateRangeFilter) (f : Option DimensionFilter) :
    List DeliveryPerformanceItem :=
  sortBy (fun a b => decide (b.total_delivery_time_minutes ≤ a.total_delivery_time_minutes))
    ((((deliveryRows ((apply_filters sales dr f).filter deliveryQualifies) das).map
        (fun r => (r.2.neighborhood, r.2.city))).dedup).filterMap
      (deliveryItem (deliveryRows ((apply_filters sales dr f).filter deliveryQualifies) das)))

/-! Concrete rows used to instantiate the theorems. -/

/-- A completed sale of store 1, channel 1, customer 1, amount 10. -/
def saleA : Sale :=
  { id := 1, store_id := 1, channel_id := 1, customer_id := some 1,
    created_at := 0, sale_status_desc := "COMPLETED", total_amount := 10,
    total_discount := 0, delivery_fee := 0, production_seconds := 600,
    delivery_seconds := some 1200 }

/-- A sale whose status carries lower-case casing. -/
def saleLower : Sale :=
  { saleA with id := 2, sale_status_desc := "completed" }

/-- A dimension filter with every set absent. -/
def emptyFilter : DimensionFilter :=
  { store_ids := none, channel_ids := none, product_ids := none,
    category_ids := none, customer_ids := none, sale_status := none }

/-- A filter whose only present set is `product_ids = [2]`. -/
def productOnlyFilter : DimensionFilter :=
  { emptyFilter with product_ids := some [2] }

/-- A filter whose only present set is `store_ids = [99]`. -/
def store99Filter : DimensionFilter :=
  { emptyFilter with store_ids := some [99] }

/-- One line item: sale 1 bought product 1. -/
def lineItemsA : List ProductSale :=
  [{ sale_id := 1, product_id := 1, quantity := 1, base_price := 5, total_price := 5 }]

/-- A one-product catalogue. -/
def productsA : List Product :=
  [{ id := 1, name := "Burger", category_id := some 1 }]

/-- A one-channel table. -/
def channelsA : List Channel :=
  [{ id := 1, name := "iFood", type := "delivery" }]

/-- A one-store table. -/
def storesA : List Store :=
  [{ id := 1, name := "Loja Centro", city := some "SP", state := some "SP" }]

/-- A customer linked to the sales of the churn scenarios. -/
def custA : Customer :=
  { id := 1, customer_name := some "Ana", email := none, phone_number := none }

/-- A one-customer table. -/
def customersA : List Customer :=
  [custA]

/-- Three completed sales of customer 1 whose most recent is 29 days
before time 100. -/
def churnSales29 : List Sale :=
  [{ saleA with id := 11, created_at := 71 },
   { saleA with id := 12, created_at := 50 },
   { saleA with id := 13, created_at := 40 }]

/-- Three completed sales of customer 1 whose most recent is 31 days
before time 100. -/
def churnSales31 : List Sale :=
  [{ saleA with id := 11, created_at := 69 },
   { saleA with id := 12, created_at := 50 },
   { saleA with id := 13, created_at := 40 }]

/-- Four qualifying delivery sales. -/
def deliverySales4 : List Sale :=
  [{ saleA with id := 21 }, { saleA with id := 22 },
   { saleA with id := 23 }, { saleA with id := 24 }]

/-- A fifth qualifying delivery sale added to `deliverySales4`. -/
def deliverySales5 : List Sale :=
  deliverySales4 ++ [{ saleA with id := 25 }]

/-- Delivery addresses of the four sales, all in the same neighborhood. -/
def deliveryAddrs4 : List DeliveryAddress :=
  [{ sale_id := 21, neighborhood := some "Moema", city := some "SP" },
   { sale_id := 22, neighborhood := some "Moema", city := some "SP" },
   { sale_id := 23, neighborhood := some "Moema", city := some "SP" },
   { sale_id := 24, neighborhood := some "Moema", city := some "SP" }]

/-- Delivery addresses of the five sales. -/
def deliveryAddrs5 : List DeliveryAddress :=
  deliveryAddrs4 ++ [{ sale_id := 25, neighborhood := some "Moema", city := some "SP" }]

/-- The channel-performance item produced by `saleA` against
`channelsA`. -/
def chanItemA : ChannelPerformanceItem :=
  { channel_id := 1, channel_name := "iFood", channel_type := "delivery",
    total_sales := 1, total_revenue := 10, average_ticket := 10,
    revenue_percentage := 100 }

/-! Helper lemmas about the `ORDER BY` model and about sums. -/

theorem insertSorted_perm (le : α → α → Bool) (a : α) :
    ∀ l : List α, (insertSorted le a l).Perm (a :: l)
  | [] => List.Perm.refl _
  | b :: t => by
    unfold insertSorted
    by_cases h : le a b = true
    · simp [h]
    · simp only [h, if_false]
      exact ((insertSorted_perm le a t).cons b).trans (List.Perm.swap a b t)

theorem sortBy_perm (le : α → α → Bool) : ∀ l : List α, (sortBy le l).Perm l
  | [] => List.Perm.refl _
  | a :: t =>
    (insertSorted_perm le a (sortBy le t)).trans ((sortBy_perm le t).cons a)

theorem mem_sortBy {le : α → α → Bool} {l : List α} {a : α} :
    a ∈ sortBy le l ↔ a ∈ l :=
  (sortBy_perm le l).mem_iff

theorem sum_map_add {α : Type} (f g : α → ℚ) :
    ∀ l : List α, (l.map (fun x => f x + g x)).sum = (l.map f).sum + (l.map g).sum
  | [] => by simp
  | a :: t => by
    simp only [List.map_cons, List.sum_cons, sum_map_add f g t]
    ring

theorem sum_map_mul_const {α : Type} (f : α → ℚ) (r : ℚ) :
    ∀ l : List α, (l.map (fun x => f x * r)).sum = (l.map f).sum * r
  | [] => by simp
  | a :: t => by
    simp only [List.map_cons, List.sum_cons, sum_map_mul_const f r t]
    ring

theorem sum_map_zero {α : Type} (l : List α) :
    (l.map (fun _ => (0 : ℚ))).sum = 0 := by
  induction l with
  | nil => simp
  | cons a t ih => simp [ih]

theorem sum_ite_eq_single (a : ℚ) (v : ℕ) :
    ∀ ids : List ℕ, ids.Nodup →
      (ids.map (fun i => if v == i then a else 0)).sum = if v ∈ ids then a else 0
  | [], _ => by simp
  | i :: t, h => by
    rcases List.nodup_cons.mp h with ⟨hi, ht⟩
    by_cases hv : v = i
    · subst hv
      simp only [List.map_cons, List.sum_cons, beq_self_eq_true, if_true,
        sum_ite_eq_single a v t ht]
      simp [hi]
    · have hbeq : (v == i) = false := beq_eq_false_iff_ne.mpr hv
      simp only [List.map_cons, List.sum_cons, hbeq, if_false,
        sum_ite_eq_single a v t ht, zero_add]
      simp [List.mem_cons, hv]

theorem filter_cons_map_sum (amt : Sale → ℚ) (p : Sale → Bool) (s : Sale)
    (t : List Sale) :
    ((List.filter p (s :: t)).map amt).sum
      = (if p s then amt s else 0) + ((t.filter p).map amt).sum := by
  by_cases h : p s <;> simp [List.filter_cons, h]

theorem sum_groups (key : Sale → ℕ) (amt : Sale → ℚ) (ids : List ℕ)
    (hnd : ids.Nodup) :
    ∀ base : List Sale,
      (ids.map (fun i => ((base.filter (fun s => key s == i)).map amt).sum)).sum
        = ((base.filter (fun s => decide (key s ∈ ids))).map amt).sum
  | [] => by
    simp only [List.filter_nil, List.map_nil, List.sum_nil]
    exact sum_map_zero ids
  | s :: t => by
    have IH := sum_groups key amt ids hnd t
    simp only [filter_cons_map_sum]
    rw [sum_map_add, sum_ite_eq_single (amt s) (key s) ids hnd, IH]
    by_cases h : key s ∈ ids <;> simp [h]

theorem sum_map_filter_le (amt : Sale → ℚ) (p : Sale → Bool) :
    ∀ l : List Sale, (∀ s ∈ l, 0 ≤ amt s) →
      ((l.filter p).map amt).sum ≤ (l.map amt).sum
  | [], _ => le_refl _
  | s :: t, h => by
    have IH := sum_map_filter_le amt p t (fun x hx => h x (List.mem_cons_of_mem s hx))
    have hs := h s (List.mem_cons_self s t)
    by_cases hp : p s
    · simp only [List.filter_cons, hp, if_true, List.map_cons, List.sum_cons]
      linarith
    · simp only [List.filter_cons, hp, List.map_cons, List.sum_cons]
      simp only [Bool.false_eq_true, if_false]
      linarith

theorem sum_map_pct_filterMap {α β : Type} (F : α → Option β) (pf : β → ℚ)
    (q : α → ℚ) :
    ∀ l : List α, (∀ a ∈ l, (F a).elim 0 pf = q a) →
      ((l.filterMap F).map pf).sum = (l.map q).sum
  | [], _ => by simp
  | a :: t, h => by
    have ha := h a (List.mem_cons_self a t)
    have IH := sum_map_pct_filterMap F pf q t
      (fun x hx => h x (List.mem_cons_of_mem a hx))
    cases hFa : F a with
    | none =>
      rw [hFa] at ha
      simp only [Option.elim] at ha
      simp [List.filterMap_cons, hFa, IH, ← ha]
    | some b =>
      rw [hFa] at ha
      simp only [Option.elim] at ha
      simp [List.filterMap_cons, hFa, IH, ← ha]

theorem pct_sum_spec (key : Sale → ℕ) (ids : List ℕ) (hnd : ids.Nodup)
    (base : List Sale) (hnn : ∀ s ∈ base, 0 ≤ s.total_amount) :
    ((ids.map (fun i =>
        if 0 < ((base.map (fun s => s.total_amount)).sum)
        then ((base.filter (fun s => key s == i)).map (fun s => s.total_amount)).sum
               / ((base.map (fun s => s.total_amount)).sum) * 100
        else 0)).sum ≤ 100)
    ∧ (0 < ((base.map (fun s => s.total_amount)).sum) →
        (∀ s ∈ base, key s ∈ ids) →
        (ids.map (fun i =>
          if 0 < ((base.map (fun s => s.total_amount)).sum)
          then ((base.filter (fun s => key s == i)).map (fun s => s.total_amount)).sum
                 / ((base.map (fun s => s.total_amount)).sum) * 100
          else 0)).sum = 100) := by
  set T := (base.map (fun s => s.total_amount)).sum with hTdef
  by_cases h : 0 < T
  · have hmap :
        (ids.map (fun i =>
          if 0 < T
          then ((base.filter (fun s => key s == i)).map (fun s => s.total_amount)).sum / T * 100
          else 0))
        = ids.map (fun i =>
            ((base.filter (fun s => key s == i)).map (fun s => s.total_amount)).sum * (100 / T)) := by
      refine List.map_congr_left (fun i _ => ?_)
      rw [if_pos h, div_mul_eq_mul_div, mul_div_assoc]
    have hsum :
        (ids.map (fun i =>
          if 0 < T
          then ((base.filter (fun s => key s == i)).map (fun s => s.total_amount)).sum / T * 100
          else 0)).sum
        = ((base.filter (fun s => decide (key s ∈ ids))).map (fun s => s.total_amount)).sum * (100 / T) := by
      rw [hmap, sum_map_mul_const, sum_groups key (fun s => s.total_amount) ids hnd base]
    constructor
    · rw [hsum]
      have hS : ((base.filter (fun s => decide (key s ∈ ids))).map (fun s => s.total_amount)).sum ≤ T :=
        sum_map_filter_le (fun s => s.total_amount) _ base hnn
      have hr : (0 : ℚ) ≤ 100 / T := div_nonneg (by norm_num) (le_of_lt h)
      calc ((base.filter (fun s => decide (key s ∈ ids))).map (fun s => s.total_amount)).sum * (100 / T)
          ≤ T * (100 / T) := mul_le_mul_of_nonneg_right hS hr
        _ = 100 := by rw [mul_comm]; exact div_mul_cancel₀ 100 (ne_of_gt h)
    · intro _ hmem
      rw [hsum]
      have hfe : base.filter (fun s => decide (key s ∈ ids)) = base :=
        List.filter_eq_self.mpr (fun s hs => decide_eq_true (hmem s hs))
      rw [hfe, ← hTdef, mul_comm]
      exact div_mul_cancel₀ 100 (ne_of_gt h)
  · have hmap :
        (ids.map (fun i =>
          if 0 < T
          then ((base.filter (fun s => key s == i)).map (fun s => s.total_amount)).sum / T * 100
          else 0))
        = ids.map (fun _ => (0 : ℚ)) :=
      List.map_congr_left (fun i _ => if_neg h)
    constructor
    · rw [hmap, sum_map_zero]
      norm_num
    · intro h0 _
      exact absurd h0 h

theorem channelRow_elim (base : List Sale) (T : ℚ) (c : Channel) :
    (channelRow base T c).elim 0 (fun it => it.revenue_percentage)
      = (if 0 < T
         then ((base.filter (fun s => s.channel_id == c.id)).map (fun s => s.total_amount)).sum / T * 100
         else 0) := by
  unfold channelRow
  by_cases hss : (base.filter (fun s => s.channel_id == c.id)).isEmpty
  · rw [List.isEmpty_iff] at hss
    simp [hss]
  · simp only [hss, Bool.false_eq_true, if_false, Option.elim]

theorem storeRow_elim (base : List Sale) (T : ℚ) (st : Store) :
    (storeRow base T st).elim 0 (fun it => it.revenue_percentage)
      = (if 0 < T
         then ((base.filter (fun s => s.store_id == st.id)).map (fun s => s.total_amount)).sum / T * 100
         else 0) := by
  unfold storeRow
  by_cases hss : (base.filter (fun s => s.store_id == st.id)).isEmpty
  · rw [List.isEmpty_iff] at hss
    simp [hss]
  · simp only [hss, Bool.false_eq_true, if_false, Option.elim]

theorem channel_pct_sum (sales : List Sale) (channels : List Channel)
    (dr : Option DateRangeFilter) (f : Option DimensionFilter) :
    ((get_channel_performance sales channels dr f).map (fun it => it.revenue_percentage)).sum
      = ((channels.map Channel.id).map (fun i =>
          if 0 < totalCompletedRevenue sales dr f
          then (((completedFilteredSales sales dr f).filter (fun s => s.channel_id == i)).map
                  (fun s => s.total_amount)).sum / totalCompletedRevenue sales dr f * 100
          else 0)).sum := by
  unfold get_channel_performance
  rw [((sortBy_perm (fun a b => decide (b.total_revenue ≤ a.total_revenue))
      (channels.filterMap
        (channelRow (completedFilteredSales sales dr f)
          (totalCompletedRevenue sales dr f)))).map
      (fun it => it.revenue_percentage)).sum_eq]
  rw [sum_map_pct_filterMap
    (channelRow (completedFilteredSales sales dr f) (totalCompletedRevenue sales dr f))
    (fun it => it.revenue_percentage)
    (fun c =>
      if 0 < totalCompletedRevenue sales dr f
      then (((completedFilteredSales sales dr f).filter (fun s => s.channel_id == c.id)).map
              (fun s => s.total_amount)).sum / totalCompletedRevenue sales dr f * 100
      else 0)
    channels (fun c _ => channelRow_elim _ _ c)]
  rw [List.map_map]
  rfl

theorem store_pct_sum (sales : List Sale) (stores : List Store)
    (dr : Option DateRangeFilter) (f : Option DimensionFilter) :
    ((get_store_performance sales stores dr f).map (fun it => it.revenue_percentage)).sum
      = ((stores.map Store.id).map (fun i =>
          if 0 < totalCompletedRevenue sales dr f
          then (((completedFilteredSales sales dr f).filter (fun s => s.store_id == i)).map
                  (fun s => s.total_amount)).sum / totalCompletedRevenue sales dr f * 100
          else 0)).sum := by
  unfold get_store_performance
  rw [((sortBy_perm (fun a b => decide (b.total_revenue ≤ a.total_revenue))
      (stores.filterMap
        (storeRow (completedFilteredSales sales dr f)
          (totalCompletedRevenue sales dr f)))).map
      (fun it => it.revenue_percentage)).sum_eq]
  rw [sum_map_pct_filterMap
    (storeRow (completedFilteredSales sales dr f) (totalCompletedRevenue sales dr f))
    (fun it => it.revenue_percentage)
    (fun st =>
      if 0 < totalCompletedRevenue sales dr f
      then (((completedFilteredSales sales dr f).filter (fun s => s.store_id == st.id)).map
              (fun s => s.total_amount)).sum / totalCompletedRevenue sales dr f * 100
      else 0)
    stores (fun st _ => storeRow_elim _ _ st)]
  rw [List.map_map]
  rfl

theorem status_partition (l : List Sale) :
    l.countP (fun s => s.sale_status_desc == "COMPLETED")
      + l.countP (fun s => s.sale_status_desc == "CANCELLED")
      + l.countP (fun s => !(s.sale_status_desc == "COMPLETED")
          && !(s.sale_status_desc == "CANCELLED"))
      = l.length := by
  induction l with
  | nil => simp
  | cons s t ih =>
    simp only [List.countP_cons, List.length_cons]
    cases hc : (s.sale_status_desc == "COMPLETED") <;>
      cases hx : (s.sale_status_desc == "CANCELLED")
    · simp [hc, hx]
      omega
    · simp [hc, hx]
      omega
    · simp [hc, hx]
      omega
    · rw [eq_of_beq hc] at hx
      exact absurd hx (by decide)

/-- C1 (amended): a sale is included in the filtered input iff it passes
the date range and the four dimension sets actually applied by
`_apply_filters` (store, channel, status, customer); the `product_ids`
and `category_ids` sets of the filter are never applied and changing
them never changes the filtered input. -/
theorem c1_filter_semantics :
    ∀ (sales : List Sale) (dr : Option DateRangeFilter) (f : DimensionFilter) (s : Sale),
      (s ∈ apply_filters sales dr (some f) ↔
        s ∈ sales ∧ dateOk dr s = true
          ∧ inDim f.store_ids s.store_id = true
          ∧ inDim f.channel_ids s.channel_id = true
          ∧ inDimStr f.sale_status s.sale_status_desc = true
          ∧ inDimOpt f.customer_ids s.customer_id = true)
      ∧ (∀ p q, apply_filters sales dr (some f)
          = apply_filters sales dr (some { f with product_ids := p, category_ids := q })) := by
  intro sales dr f s
  constructor
  · simp [apply_filters, List.mem_filter, dimOk, Bool.and_eq_true, and_assoc]
  · intro p q
    rfl

/-- C1 counterexample: with a filter whose only present dimension set is
`product_ids = [2]`, a sale whose only line item is product 1 does not
satisfy that present dimension set, yet `_apply_filters` includes it —
so inclusion is not equivalent to satisfying every present dimension
set. -/
theorem c1_counterexample :
    saleA ∈ apply_filters [saleA] none (some productOnlyFilter)
      ∧ specDimensionMatches lineItemsA productsA productOnlyFilter saleA = false := by
  constructor
  · decide
  · decide

/-- C2: the production path classifies a completed sale by
case-sensitive equality against the literal COMPLETED while the
prototype raw-SQL path matches case-insensitively, and on the
lower-cased status value the two completed-sale inputs disagree: the
prototype keeps the sale and the production path drops it. -/
theorem c2_status_divergence :
    (∀ st, completedStatus st = true ↔ st = "COMPLETED")
    ∧ (∀ st, protoCompletedStatus st = true ↔ lowerStr st = lowerStr "completed")
    ∧ topProductsCompletedInput [saleLower] = [saleLower]
    ∧ rankingCompletedInput [saleLower] none none = [] := by
  refine ⟨fun st => ?_, fun st => ?_, ?_, ?_⟩
  · simp [completedStatus]
  · simp [protoCompletedStatus, ilikeExact]
  · decide
  · decide

/-- C8: `get_customer_retention` does not read its `date_range`
argument — two calls differing only in that argument return the same
list. -/
theorem c8_retention_ignores_date_range :
    ∀ (sales : List Sale) (customers : List Customer) (now : ℚ)
      (min_orders days_inactive : ℕ) (dr1 dr2 : Option DateRangeFilter),
      get_customer_retention sales customers now min_orders days_inactive dr1
        = get_customer_retention sales customers now min_orders days_inactive dr2 :=
  fun _ _ _ _ _ _ _ => rfl

/-- C9: for any period string outside daily/weekly/monthly — exactly
the strings rejected by the HTTP regex — the service-layer
`get_time_series` silently falls back to the daily grouping and returns
the same result as period daily. -/
theorem c9_period_fallback :
    ∀ (sales : List Sale) (dr : Option DateRangeFilter) (f : Option DimensionFilter)
      (period : String), periodParamValid period = false →
      get_time_series sales dr f period = get_time_series sales dr f "daily" := by
  intro sales dr f period h
  simp only [periodParamValid, Bool.or_eq_false_iff, beq_eq_false_iff_ne] at h
  have hg : dateGroupOf period = dateGroupOf "daily" := by
    simp [dateGroupOf, h.1.1, h.1.2, h.2]
  unfold get_time_series
  rw [hg]

theorem c9_period_fallback_witness :
    periodParamValid "hourly" = false
      ∧ get_time_series [] none none "hourly" = get_time_series [] none none "daily" :=
  ⟨by decide, c9_period_fallback [] none none "hourly" (by decide)⟩

/-- C10: in every sales overview, completed plus cancelled counts are at
most the total count, and together with the count of sales whose status
is neither exactly COMPLETED nor exactly CANCELLED they partition the
total. -/
theorem c10_overview_counts :
    ∀ (sales : List Sale) (dr : Option DateRangeFilter) (f : Option DimensionFilter),
      (get_sales_overview sales dr f).completed_sales
          + (get_sales_overview sales dr f).cancelled_sales
          ≤ (get_sales_overview sales dr f).total_sales
      ∧ (get_sales_overview sales dr f).completed_sales
          + (get_sales_overview sales dr f).cancelled_sales
          + (apply_filters sales dr f).countP
              (fun s => !(s.sale_status_desc == "COMPLETED")
                && !(s.sale_status_desc == "CANCELLED"))
          = (get_sales_overview sales dr f).total_sales := by
  intro sales dr f
  have hp := status_partition (apply_filters sales dr f)
  unfold get_sales_overview overviewRow
  by_cases hm : (apply_filters sales dr f).isEmpty = true
  · rw [List.isEmpty_iff] at hm
    simp [hm]
  · rw [Bool.not_eq_true] at hm
    simp only [hm, Bool.false_eq_true, if_false, Option.getD_some]
    exact ⟨by omega, by omega⟩

/-- C3: in channel and store performance each returned group's
`revenue_percentage` equals the group revenue divided by the total
completed revenue of the first query times 100 when that total is
positive, and 0 otherwise (division by zero never occurs). -/
theorem c3_two_query_percentage :
    ∀ (sales : List Sale) (channels : List Channel) (stores : List Store)
      (dr : Option DateRangeFilter) (f : Option DimensionFilter),
      (∀ it ∈ get_channel_performance sales channels dr f,
        it.revenue_percentage =
          if 0 < totalCompletedRevenue sales dr f
          then it.total_revenue / totalCompletedRevenue sales dr f * 100
          else 0)
      ∧ (∀ it ∈ get_store_performance sales stores dr f,
        it.revenue_percentage =
          if 0 < totalCompletedRevenue sales dr f
          then it.total_revenue / totalCompletedRevenue sales dr f * 100
          else 0) := by
  intro sales channels stores dr f
  constructor
  · intro it hit
    unfold get_channel_performance at hit
    rw [mem_sortBy] at hit
    rcases List.mem_filterMap.mp hit with ⟨c, _, hc⟩
    unfold channelRow at hc
    by_cases hss :
        ((completedFilteredSales sales dr f).filter (fun s => s.channel_id == c.id)).isEmpty = true
    · simp [hss] at hc
    · rw [Bool.not_eq_true] at hss
      simp only [hss, Bool.false_eq_true, if_false, Option.some.injEq] at hc
      rw [← hc]
  · intro it hit
    unfold get_store_performance at hit
    rw [mem_sortBy] at hit
    rcases List.mem_filterMap.mp hit with ⟨st, _, hst⟩
    unfold storeRow at hst
    by_cases hss :
        ((completedFilteredSales sales dr f).filter (fun s => s.store_id == st.id)).isEmpty = true
    · simp [hss] at hst
    · rw [Bool.not_eq_true] at hss
      simp only [hss, Bool.false_eq_true, if_false, Option.some.injEq] at hst
      rw [← hst]

theorem c3_two_query_percentage_witness :
    chanItemA ∈ get_channel_performance [saleA] channelsA none none
      ∧ chanItemA.revenue_percentage =
          (if 0 < totalCompletedRevenue [saleA] none none
           then chanItemA.total_revenue / totalCompletedRevenue [saleA] none none * 100
           else 0) :=
  have h10 : (0 : ℚ) < 10 := by decide
  have hmem : chanItemA ∈ get_channel_performance [saleA] channelsA none none := by
    simp [get_channel_performance, channelRow, completedFilteredSales,
      totalCompletedRevenue, apply_filters, dateOk, dimOk, completedSale,
      completedStatus, sortBy, insertSorted, saleA, channelsA, chanItemA, h10]
  ⟨hmem, (c3_two_query_percentage [saleA] channelsA [] none none).1 chanItemA hmem⟩

/-- C4 (amended): with distinct group ids (a primary-key property of the
channel/store tables) and non-negative sale amounts, the
`revenue_percentage` values of a channel or store performance result sum
to at most 100, and to exactly 100 when the total completed filtered
revenue is positive and every completed filtered sale belongs to a
listed group; with a zero total (for instance an empty filtered set) the
percentages sum to 0, not 100. -/
theorem c4_percentage_sum :
    ∀ (sales : List Sale) (channels : List Channel) (stores : List Store)
      (dr : Option DateRangeFilter) (f : Option DimensionFilter),
      (channels.map Channel.id).Nodup →
      (stores.map Store.id).Nodup →
      (∀ s ∈ sales, 0 ≤ s.total_amount) →
      (((get_channel_performance sales channels dr f).map (fun it => it.revenue_percentage)).sum ≤ 100
        ∧ (0 < totalCompletedRevenue sales dr f →
            (∀ s ∈ completedFilteredSales sales dr f, s.channel_id ∈ channels.map Channel.id) →
            ((get_channel_performance sales channels dr f).map (fun it => it.revenue_percentage)).sum = 100))
      ∧ (((get_store_performance sales stores dr f).map (fun it => it.revenue_percentage)).sum ≤ 100
        ∧ (0 < totalCompletedRevenue sales dr f →
            (∀ s ∈ completedFilteredSales sales dr f, s.store_id ∈ stores.map Store.id) →
            ((get_store_performance sales stores dr f).map (fun it => it.revenue_percentage)).sum = 100)) := by
  intro sales channels stores dr f hndc hnds hnn
  have hnnb : ∀ s ∈ completedFilteredSales sales dr f, 0 ≤ s.total_amount := by
    intro s hs
    unfold completedFilteredSales apply_filters at hs
    exact hnn s (List.mem_filter.mp (List.mem_filter.mp hs).1).1
  have hch := pct_sum_spec (fun s => s.channel_id) (channels.map Channel.id) hndc
    (completedFilteredSales sales dr f) hnnb
  have hst := pct_sum_spec (fun s => s.store_id) (stores.map Store.id) hnds
    (completedFilteredSales sales dr f) hnnb
  refine ⟨⟨?_, ?_⟩, ?_, ?_⟩
  · rw [channel_pct_sum]
    exact hch.1
  · intro hT hmem
    rw [channel_pct_sum]
    exact hch.2 hT hmem
  · rw [store_pct_sum]
    exact hst.1
  · intro hT hmem
    rw [store_pct_sum]
    exact hst.2 hT hmem

theorem c4_percentage_sum_witness :
    (channelsA.map Channel.id).Nodup
      ∧ (storesA.map Store.id).Nodup
      ∧ (∀ s ∈ [saleA], 0 ≤ s.total_amount)
      ∧ ((((get_channel_performance [saleA] channelsA none none).map
            (fun it => it.revenue_percentage)).sum ≤ 100
          ∧ (0 < totalCompletedRevenue [saleA] none none →
              (∀ s ∈ completedFilteredSales [saleA] none none,
                s.channel_id ∈ channelsA.map Channel.id) →
              (((get_channel_performance [saleA] channelsA none none).map
                (fun it => it.revenue_percentage)).sum = 100)))
        ∧ ((((get_store_performance [saleA] storesA none none).map
              (fun it => it.revenue_percentage)).sum ≤ 100)
          ∧ (0 < totalCompletedRevenue [saleA] none none →
              (∀ s ∈ completedFilteredSales [saleA] none none,
                s.store_id ∈ storesA.map Store.id) →
              (((get_store_performance [saleA] storesA none none).map
                (fun it => it.revenue_percentage)).sum = 100)))) :=
  ⟨by decide, by decide, by decide,
    c4_percentage_sum [saleA] channelsA storesA none none (by decide) (by decide) (by decide)⟩

/-- C4 counterexample: with no sales and one listed channel the original
claim's premises hold (non-negative amounts, every completed filtered
sale — there are none — belongs to a listed group), yet the percentages
sum to 0, not 100. -/
theorem c4_counterexample :
    (∀ s ∈ ([] : List Sale), 0 ≤ s.total_amount)
      ∧ (∀ s ∈ completedFilteredSales ([] : List Sale) none none,
          s.channel_id ∈ channelsA.map Channel.id)
      ∧ ((get_channel_performance [] channelsA none none).map
          (fun it => it.revenue_percentage)).sum = 0
      ∧ ((get_channel_performance [] channelsA none none).map
          (fun it => it.revenue_percentage)).sum ≠ 100 := by
  refine ⟨?_, ?_, ?_, ?_⟩
  · intro s hs
    exact absurd hs (List.not_mem_nil s)
  · intro s hs
    exact absurd hs (by simp [completedFilteredSales, apply_filters])
  · simp [get_channel_performance, channelRow, completedFilteredSales,
      apply_filters, sortBy, channelsA]
  · simp [get_channel_performance, channelRow, completedFilteredSales,
      apply_filters, sortBy, channelsA]

/-- C5: customer retention returns exactly the customers of the customer
table having at least one completed sale with a non-null customer link,
at least `min_orders` completed sales, and a most recent completed sale
strictly before now minus `days_inactive` days; in particular a customer
with exactly 3 completed sales whose most recent is 29 days old is
excluded at `days_inactive` 30, and included when it is 31 days old. -/
theorem c5_retention_membership :
    (∀ (sales : List Sale) (customers : List Customer) (now : ℚ)
       (min_orders days_inactive : ℕ) (dr : Option DateRangeFilter) (c : Customer),
       c ∈ customers →
       ((∃ it ∈ get_customer_retention sales customers now min_orders days_inactive dr,
           it.customer_id = c.id) ↔
         (custCompletedSales sales c.id ≠ []
           ∧ min_orders ≤ (custCompletedSales sales c.id).length
           ∧ lastOrderDate (custCompletedSales sales c.id) < now - (days_inactive : ℚ))))
    ∧ (¬ ∃ it ∈ get_customer_retention churnSales29 customersA 100 3 30 none,
          it.customer_id = custA.id)
    ∧ (∃ it ∈ get_customer_retention churnSales31 customersA 100 3 30 none,
          it.customer_id = custA.id) := by
  have main : ∀ (sales : List Sale) (customers : List Customer) (now : ℚ)
      (min_orders days_inactive : ℕ) (dr : Option DateRangeFilter) (c : Customer),
      c ∈ customers →
      ((∃ it ∈ get_customer_retention sales customers now min_orders days_inactive dr,
          it.customer_id = c.id) ↔
        (custCompletedSales sales c.id ≠ []
          ∧ min_orders ≤ (custCompletedSales sales c.id).length
          ∧ lastOrderDate (custCompletedSales sales c.id) < now - (days_inactive : ℚ))) := by
    intro sales customers now mo di dr c hc
    constructor
    · rintro ⟨it, hit, hid⟩
      unfold get_customer_retention at hit
      rw [mem_sortBy] at hit
      rcases List.mem_filterMap.mp hit with ⟨c2, _, hc2⟩
      unfold retentionRow at hc2
      by_cases hq : (custCompletedSales sales c2.id).isEmpty = true
      · simp [hq] at hc2
      · rw [Bool.not_eq_true] at hq
        simp only [hq, Bool.false_eq_true, if_false] at hc2
        by_cases hcond : mo ≤ (custCompletedSales sales c2.id).length ∧
            lastOrderDate (custCompletedSales sales c2.id) < now - (di : ℚ)
        · rw [if_pos hcond, Option.some.injEq] at hc2
          have hid2 : c2.id = c.id := by
            rw [← hid, ← hc2]
          rw [← hid2]
          refine ⟨?_, hcond.1, hcond.2⟩
          intro hnil
          rw [hnil] at hq
          exact absurd hq (by simp)
        · rw [if_neg hcond] at hc2
          exact absurd hc2 (by simp)
    · rintro ⟨hne, hlen, hlast⟩
      have hq : (custCompletedSales sales c.id).isEmpty = false := by
        rw [← Bool.not_eq_true, List.isEmpty_iff]
        exact hne
      refine ⟨{ customer_id := c.id, customer_name := c.customer_name,
                email := c.email, phone_number := c.phone_number,
                total_orders := (custCompletedSales sales c.id).length,
                total_spent := ((custCompletedSales sales c.id).map (fun s => s.total_amount)).sum,
                average_ticket := ((custCompletedSales sales c.id).map (fun s => s.total_amount)).sum
                  / ((custCompletedSales sales c.id).length : ℚ),
                last_order_date := lastOrderDate (custCompletedSales sales c.id),
                days_since_last_order :=
                  Rat.floor (now - lastOrderDate (custCompletedSales sales c.id)),
                first_order_date := firstOrderDate (custCompletedSales sales c.id) }, ?_, rfl⟩
      unfold get_customer_retention
      rw [mem_sortBy]
      refine List.mem_filterMap.mpr ⟨c, hc, ?_⟩
      unfold retentionRow
      simp only [hq, Bool.false_eq_true, if_false]
      rw [if_pos ⟨hlen, hlast⟩]
  refine ⟨main, ?_, ?_⟩
  · rw [main churnSales29 customersA 100 3 30 none custA (by decide)]
    have hqeq : custCompletedSales churnSales29 custA.id = churnSales29 := by decide
    rw [hqeq]
    rintro ⟨-, -, hlt⟩
    have hl : lastOrderDate churnSales29 = 71 := by decide
    rw [hl] at hlt
    norm_num at hlt
  · rw [main churnSales31 customersA 100 3 30 none custA (by decide)]
    have hqeq : custCompletedSales churnSales31 custA.id = churnSales31 := by decide
    rw [hqeq]
    have hl : lastOrderDate churnSales31 = 69 := by decide
    rw [hl]
    refine ⟨by decide, by decide, ?_⟩
    norm_num

theorem c5_retention_membership_witness :
    custA ∈ customersA
      ∧ ((∃ it ∈ get_customer_retention churnSales31 customersA 100 3 30 none,
            it.customer_id = custA.id) ↔
          (custCompletedSales churnSales31 custA.id ≠ []
            ∧ 3 ≤ (custCompletedSales churnSales31 custA.id).length
            ∧ lastOrderDate (custCompletedSales churnSales31 custA.id) < 100 - ((30 : ℕ) : ℚ))) :=
  ⟨by decide, c5_retention_membership.1 churnSales31 customersA 100 3 30 none custA (by decide)⟩

/-- C6: in delivery performance a (neighborhood, city) key appears in
the result iff its group of qualifying joined rows (completed, non-null
delivery time, passing the filters) has at least 5 rows; a neighborhood
with exactly 4 qualifying deliveries is excluded and becomes included
once a fifth is added. -/
theorem c6_delivery_having :
    (∀ (sales : List Sale) (das : List DeliveryAddress) (dr : Option DateRangeFilter)
       (f : Option DimensionFilter) (k : Option String × Option String),
       (k ∈ (get_delivery_performance sales das dr f).map (fun it => (it.neighborhood, it.city))
         ↔ 5 ≤ (deliveryGroup sales das dr f k).length))
    ∧ ((some "Moema", some "SP") ∉
        (get_delivery_performance deliverySales4 deliveryAddrs4 none none).map
          (fun it => (it.neighborhood, it.city)))
    ∧ ((some "Moema", some "SP") ∈
        (get_delivery_performance deliverySales5 deliveryAddrs5 none none).map
          (fun it => (it.neighborhood, it.city))) := by
  have main : ∀ (sales : List Sale) (das : List DeliveryAddress)
      (dr : Option DateRangeFilter) (f : Option DimensionFilter)
      (k : Option String × Option String),
      (k ∈ (get_delivery_performance sales das dr f).map (fun it => (it.neighborhood, it.city))
        ↔ 5 ≤ (deliveryGroup sales das dr f k).length) := by
    intro sales das dr f k
    constructor
    · intro hk
      rcases List.mem_map.mp hk with ⟨it, hit, hkey⟩
      unfold get_delivery_performance at hit
      rw [mem_sortBy] at hit
      rcases List.mem_filterMap.mp hit with ⟨k2, _, hk2⟩
      unfold deliveryItem at hk2
      by_cases hlen : 5 ≤
          ((deliveryRows ((apply_filters sales dr f).filter deliveryQualifies) das).filter
            (fun r => decide ((r.2.neighborhood, r.2.city) = k2))).length
      · rw [if_pos hlen, Option.some.injEq] at hk2
        rw [← hk2] at hkey
        simp only [Prod.mk.eta] at hkey
        rw [← hkey]
        exact hlen
      · rw [if_neg hlen] at hk2
        exact absurd hk2 (by simp)
    · intro h5
      have hpos : 0 < (deliveryGroup sales das dr f k).length := by omega
      obtain ⟨r, hr⟩ := List.exists_mem_of_length_pos hpos
      unfold deliveryGroup at hr
      have hr2 := List.mem_filter.mp hr
      have hrk : (r.2.neighborhood, r.2.city) = k := of_decide_eq_true hr2.2
      have hkeys : k ∈ ((deliveryRows ((apply_filters sales dr f).filter deliveryQualifies) das).map
          (fun r => (r.2.neighborhood, r.2.city))).dedup := by
        rw [List.mem_dedup]
        exact List.mem_map.mpr ⟨r, hr2.1, hrk⟩
      have h5u : 5 ≤
          ((deliveryRows ((apply_filters sales dr f).filter deliveryQualifies) das).filter
            (fun r => decide ((r.2.neighborhood, r.2.city) = k))).length := h5
      rcases hsome : deliveryItem
          (deliveryRows ((apply_filters sales dr f).filter deliveryQualifies) das) k with _ | b
      · exfalso
        simp only [deliveryItem] at hsome
        rw [if_pos h5u] at hsome
        exact absurd hsome (by simp)
      · have hfields := hsome
        simp only [deliveryItem] at hfields
        rw [if_pos h5u, Option.some.injEq] at hfields
        refine List.mem_map.mpr ⟨b, ?_, ?_⟩
        · unfold get_delivery_performance
          rw [mem_sortBy]
          exact List.mem_filterMap.mpr ⟨k, hkeys, hsome⟩
        · rw [← hfields]
  refine ⟨main, ?_, ?_⟩
  · rw [main deliverySales4 deliveryAddrs4 none none (some "Moema", some "SP")]
    decide
  · rw [main deliverySales5 deliveryAddrs5 none none (some "Moema", some "SP")]
    decide

/-- C7: every nullable aggregate of the sales overview is NULL on an
empty matching set and is coerced to 0 in the typed response: a request
matching zero sales returns the all-zero overview, not nulls and not an
error. -/
theorem c7_null_coalescing :
    ∀ (sales : List Sale) (dr : Option DateRangeFilter) (f : Option DimensionFilter),
      apply_filters sales dr f = [] →
      (overviewRow sales dr f).total_revenue = none
      ∧ (overviewRow sales dr f).average_ticket = none
      ∧ (overviewRow sales dr f).completed_sales = none
      ∧ (overviewRow sales dr f).cancelled_sales = none
      ∧ (overviewRow sales dr f).total_discount = none
      ∧ (overviewRow sales dr f).total_delivery_fee = none
      ∧ get_sales_overview sales dr f =
          { total_sales := 0, total_revenue := 0, average_ticket := 0,
            completed_sales := 0, cancelled_sales := 0, total_discount := 0,
            total_delivery_fee := 0 } := by
  intro sales dr f h
  simp [get_sales_overview, overviewRow, h]

theorem c7_null_coalescing_witness :
    apply_filters [saleA] none (some store99Filter) = []
      ∧ ((overviewRow [saleA] none (some store99Filter)).total_revenue = none
        ∧ (overviewRow [saleA] none (some store99Filter)).average_ticket = none
        ∧ (overviewRow [saleA] none (some store99Filter)).completed_sales = none
        ∧ (overviewRow [saleA] none (some store99Filter)).cancelled_sales = none
        ∧ (overviewRow [saleA] none (some store99Filter)).total_discount = none
        ∧ (overviewRow [saleA] none (some store99Filter)).total_delivery_fee = none
        ∧ get_sales_overview [saleA] none (some store99Filter) =
            { total_sales := 0, total_revenue := 0, average_ticket := 0,
              completed_sales := 0, cancelled_sales := 0, total_discount := 0,
              total_delivery_fee := 0 }) :=
  ⟨by decide, c7_null_coalescing [saleA] none (some store99Filter) (by decide)⟩

end Nola
